import Mathlib

/-!
Shallow embedding of the overlay-over-XFS filesystem driver
(`store/filesystems/overlayxfs/driver.go`) of the grootfs rootfs
provisioner, together with theorems settling the spec claims about it.

The driver mutates an on-disk store through syscalls (stat, mkdir,
mount, unmount, remove, removeall, xfs quota).  We model the store as
an explicit state (`FS`: the set of existing paths and the set of mount
targets), kernel-decided outcomes as an oracle (`Env`), and every
driver operation as a state transformer that additionally records the
ordered trace of syscall-level actions it performed (`Action`), so that
ordering claims ("the quota is set before the mount") are statements
about the trace.
-/

namespace OverlayXfs

/-- Directory-name constants of the driver source (`UpperDir = "diff"`,
`WorkDir = "workdir"`, `RootfsDir = "rootfs"`). -/
def UpperDir : String := "diff"

def WorkDir : String := "workdir"

def RootfsDir : String := "rootfs"

/-- Modelled from the spec: the store-layout constant for the volumes
directory (`store.VolumesDirName`; the `store` package is not under the
embedded sources, only the spec's layout `store-path/volumes/<id>`). -/
def VolumesDirName : String := "volumes"

/-- Modelled from the spec: the store-layout constant for the images
directory (`store.ImageDirName`; spec layout `store-path/images/<id>`). -/
def ImageDirName : String := "images"

/-- `filepath.Join` for the clean one-component joins the driver performs. -/
def joinPath (a b : String) : String := a ++ "/" ++ b

/-- The driver: holds the store path (`type Driver struct { storePath string }`). -/
structure Driver where
  storePath : String
  deriving Repr, DecidableEq

/-- `image_cloner.ImageDriverSpec`, restricted to the fields the driver
reads: `ImagePath`, `BaseVolumePath` (a single string field) and
`DiskLimit` (Go `int64`, embedded as `Int`). -/
structure ImageDriverSpec where
  ImagePath : String
  BaseVolumePath : String
  DiskLimit : Int
  deriving Repr, DecidableEq

/-- Syscall-level actions the driver performs, in trace order. -/
inductive Action where
  | statA (p : String)
  | mkdirA (p : String) (mode : Nat)
  | newQuotaControlA (p : String)
  | setQuotaA (p : String) (size : Nat)
  | mountA (source target fstype : String) (flags : Nat) (data : String)
  | unmountA (p : String)
  | removeA (p : String)
  | removeAllA (p : String)
  deriving Repr, DecidableEq

/-- Whether an action is a directory creation. -/
def Action.isMkdir : Action → Bool
  | .mkdirA _ _ => true
  | _ => false

/-- Whether an action is a mount. -/
def Action.isMount : Action → Bool
  | .mountA _ _ _ _ _ => true
  | _ => false

/-- Whether an action is a quota application. -/
def Action.isSetQuota : Action → Bool
  | .setQuotaA _ _ => true
  | _ => false

/-- Result of a driver operation: Go's `(value, error)` pairs, plus a
separate constructor for a runtime `panic`. -/
inductive Outcome (α : Type) where
  | ok (a : α)
  | error (msg : String)
  | panicked (msg : String)
  deriving Repr, DecidableEq

/-- Whether an outcome is a success. -/
def Outcome.isOk {α : Type} : Outcome α → Bool
  | .ok _ => true
  | _ => false

/-- The on-disk state the driver manipulates: the set of existing paths
and the set of overlay-mount targets. -/
structure FS where
  dirs : List String
  mounts : List String
  deriving Repr, DecidableEq

/-- Kernel/filesystem oracle: outcomes of the syscalls whose success is
decided outside the driver (mount, unmount, non-ENOENT remove failures,
XFS quota machinery). -/
structure Env where
  mountOk : Bool
  unmountOk : Bool
  removeOk : String → Bool
  removeAllOk : String → Bool
  quotaControlOk : Bool
  setQuotaOk : Bool

/-- `groot.VolumeStats`: the stats pair returned by `FetchStats`. -/
structure VolumeStats where
  TotalBytesUsed : Nat
  ExclusiveBytesUsed : Nat
  deriving Repr, DecidableEq

/-- `Driver.VolumePath`: `filepath.Join(storePath, VolumesDirName, id)`,
`os.Stat` it; on success return the path, otherwise an error naming the
id.  (The stat-error text appended by `fmt.Errorf` is modelled by the
fixed placeholder `"stat error"`.) -/
def VolumePath (d : Driver) (id : String) (fs : FS) :
    Outcome String × FS × List Action :=
  let volPath := joinPath (joinPath d.storePath VolumesDirName) id
  if fs.dirs.contains volPath then
    (.ok volPath, fs, [.statA volPath])
  else
    (.error ("volume does not exist `" ++ id ++ "`: stat error"), fs, [.statA volPath])

/-- `Driver.CreateVolume`: `os.Mkdir(volumePath, 0700)`; `Mkdir` fails
with EEXIST when the path already exists, otherwise creates it.
`parentID` is unused, as in the source. -/
def CreateVolume (d : Driver) (parentID id : String) (fs : FS) :
    Outcome String × FS × List Action :=
  let volumePath := joinPath (joinPath d.storePath VolumesDirName) id
  if fs.dirs.contains volumePath then
    (.error "creating volume: file exists", fs, [.mkdirA volumePath 448])
  else
    (.ok volumePath, { fs with dirs := volumePath :: fs.dirs }, [.mkdirA volumePath 448])

/-- `Driver.DestroyVolume`: the source body is `panic("not implemented")`. -/
def DestroyVolume (d : Driver) (id : String) (fs : FS) :
    Outcome Unit × FS × List Action :=
  (.panicked "not implemented", fs, [])

/-- `Driver.Volumes`: the source body is `panic("not implemented")`. -/
def Volumes (d : Driver) (fs : FS) :
    Outcome (List String) × FS × List Action :=
  (.panicked "not implemented", fs, [])

/-- `Driver.FetchStats`: the source body is `panic("not implemented")`. -/
def FetchStats (d : Driver) (path : String) (fs : FS) :
    Outcome VolumeStats × FS × List Action :=
  (.panicked "not implemented", fs, [])

/-- `Driver.applyDiskLimit`: a no-op when `DiskLimit == 0`; otherwise
builds a quota control for `storePath/images` and sets a quota of size
`uint64(spec.DiskLimit)` (Go int64→uint64 conversion: the value modulo
`2^64`) on `spec.ImagePath`.  Returns the outcome and the action trace. -/
def applyDiskLimit (d : Driver) (env : Env) (spec : ImageDriverSpec) :
    Outcome Unit × List Action :=
  if spec.DiskLimit = 0 then
    (.ok (), [])
  else
    let imagesPath := joinPath d.storePath ImageDirName
    if env.quotaControlOk then
      let size := (spec.DiskLimit % (2 ^ 64 : Int)).toNat
      if env.setQuotaOk then
        (.ok (), [.newQuotaControlA imagesPath, .setQuotaA spec.ImagePath size])
      else
        (.error ("setting quota to " ++ spec.ImagePath),
         [.newQuotaControlA imagesPath, .setQuotaA spec.ImagePath size])
    else
      (.error ("creating xfs quota control " ++ imagesPath),
       [.newQuotaControlA imagesPath])

/-- `Driver.CreateImage`: stat `ImagePath` and `BaseVolumePath` (error if
absent), apply the disk limit, `Mkdir` `diff/`, `workdir/`, `rootfs/`
(0700) inside the image path, then `syscall.Mount("overlay", rootfs,
"overlay", 0, "lowerdir=<BaseVolumePath>,upperdir=<diff>,workdir=<workdir>")`.
On mount failure the error is returned with no directory cleanup. -/
def CreateImage (d : Driver) (env : Env) (spec : ImageDriverSpec) (fs : FS) :
    Outcome Unit × FS × List Action :=
  if ¬ fs.dirs.contains spec.ImagePath then
    (.error "image path does not exist", fs, [.statA spec.ImagePath])
  else if ¬ fs.dirs.contains spec.BaseVolumePath then
    (.error "base volume path does not exist", fs,
     [.statA spec.ImagePath, .statA spec.BaseVolumePath])
  else
    let upperDir := joinPath spec.ImagePath UpperDir
    let workDir := joinPath spec.ImagePath WorkDir
    let rootfsDir := joinPath spec.ImagePath RootfsDir
    let quotaRes := applyDiskLimit d env spec
    let pre := .statA spec.ImagePath :: .statA spec.BaseVolumePath :: quotaRes.2
    match quotaRes.1 with
    | .error e => (.error ("applying disk limits: " ++ e), fs, pre)
    | .panicked e => (.panicked e, fs, pre)
    | .ok _ =>
      if fs.dirs.contains upperDir then
        (.error "creating upperdir folder", fs, pre ++ [.mkdirA upperDir 448])
      else
        let fs1 : FS := { fs with dirs := upperDir :: fs.dirs }
        if fs1.dirs.contains workDir then
          (.error "creating workdir folder", fs1,
           pre ++ [.mkdirA upperDir 448, .mkdirA workDir 448])
        else
          let fs2 : FS := { fs1 with dirs := workDir :: fs1.dirs }
          if fs2.dirs.contains rootfsDir then
            (.error "creating rootfs folder", fs2,
             pre ++ [.mkdirA upperDir 448, .mkdirA workDir 448, .mkdirA rootfsDir 448])
          else
            let fs3 : FS := { fs2 with dirs := rootfsDir :: fs2.dirs }
            let mountData :=
              "lowerdir=" ++ spec.BaseVolumePath ++ ",upperdir=" ++ upperDir
                ++ ",workdir=" ++ workDir
            let trace := pre ++
              [.mkdirA upperDir 448, .mkdirA workDir 448, .mkdirA rootfsDir 448,
               .mountA "overlay" rootfsDir "overlay" 0 mountData]
            if env.mountOk then
              (.ok (), { fs3 with mounts := rootfsDir :: fs3.mounts }, trace)
            else
              (.error "mounting overlay", fs3, trace)

/-- Remove a path and everything under it from the existing-path set
(the effect of a successful `os.RemoveAll`). -/
def removeTree (p : String) (dirs : List String) : List String :=
  dirs.filter (fun q => !(q == p) && !(q.startsWith (p ++ "/")))

/-- `Driver.DestroyImage`: `syscall.Unmount(rootfs, 0)` (error if it
fails), then `os.Remove(rootfs)` (fails when absent or when the kernel
rejects it), then `os.RemoveAll(workdir)`, then `os.RemoveAll(diff)`,
each failure returned immediately. -/
def DestroyImage (d : Driver) (env : Env) (imagePath : String) (fs : FS) :
    Outcome Unit × FS × List Action :=
  let rootfsDir := joinPath imagePath RootfsDir
  let workDir := joinPath imagePath WorkDir
  let upperDir := joinPath imagePath UpperDir
  if ¬ env.unmountOk then
    (.error "unmounting rootfs folder", fs, [.unmountA rootfsDir])
  else
    let fs1 : FS := { fs with mounts := fs.mounts.erase rootfsDir }
    if fs1.dirs.contains rootfsDir && env.removeOk rootfsDir then
      let fs2 : FS := { fs1 with dirs := fs1.dirs.erase rootfsDir }
      if env.removeAllOk workDir then
        let fs3 : FS := { fs2 with dirs := removeTree workDir fs2.dirs }
        if env.removeAllOk upperDir then
          (.ok (), { fs3 with dirs := removeTree upperDir fs3.dirs },
           [.unmountA rootfsDir, .removeA rootfsDir, .removeAllA workDir,
            .removeAllA upperDir])
        else
          (.error "deleting upperdir folder", fs3,
           [.unmountA rootfsDir, .removeA rootfsDir, .removeAllA workDir,
            .removeAllA upperDir])
      else
        (.error "deleting workdir folder", fs2,
         [.unmountA rootfsDir, .removeA rootfsDir, .removeAllA workDir])
    else
      (.error "deleting rootfs folder", fs1, [.unmountA rootfsDir, .removeA rootfsDir])

/-- Modelled from the spec: "colon-joined base-volume-paths in chain
order" — the lowerdir string the spec prescribes for a chain. -/
def colonJoin (chain : List String) : String :=
  String.intercalate ":" chain

/-- Modelled from the spec: the image cloner (not under the embedded
sources) invokes `create-image` with the chain of base volume paths; the
driver's spec carries them in its single `BaseVolumePath` field, so the
chain arrives colon-joined there. -/
def specOfChain (imagePath : String) (chain : List String) (diskLimit : Int) :
    ImageDriverSpec :=
  { ImagePath := imagePath, BaseVolumePath := colonJoin chain, DiskLimit := diskLimit }

/-! ## Helper lemmas -/

theorem joinPath_length (a b : String) :
    (joinPath a b).length = a.length + 1 + b.length := by
  have h1 : String.length "/" = 1 := rfl
  simp [joinPath, String.length_append, h1]

theorem joinPath_ne_of_length {b c : String} (a : String)
    (h : b.length ≠ c.length) : joinPath a b ≠ joinPath a c := by
  intro he
  have hl := congrArg String.length he
  rw [joinPath_length, joinPath_length] at hl
  omega

theorem contains_eq_true_iff (l : List String) (x : String) :
    l.contains x = true ↔ x ∈ l :=
  List.elem_iff

theorem contains_eq_false_iff (l : List String) (x : String) :
    l.contains x = false ↔ x ∉ l := by
  constructor
  · intro h hm
    rw [(contains_eq_true_iff l x).mpr hm] at h
    cases h
  · intro h
    cases hc : l.contains x
    · rfl
    · exact absurd ((contains_eq_true_iff l x).mp hc) h

theorem contains_cons_of_ne_false {l : List String} {x a : String}
    (h1 : x ≠ a) (h2 : l.contains x = false) : (a :: l).contains x = false := by
  rw [contains_eq_false_iff] at h2 ⊢
  intro hm
  rcases List.mem_cons.mp hm with h | h
  · exact h1 h
  · exact h2 h

theorem work_ne_upper (p : String) : joinPath p WorkDir ≠ joinPath p UpperDir :=
  joinPath_ne_of_length p (by decide)

theorem rootfs_ne_work (p : String) : joinPath p RootfsDir ≠ joinPath p WorkDir :=
  joinPath_ne_of_length p (by decide)

theorem rootfs_ne_upper (p : String) : joinPath p RootfsDir ≠ joinPath p UpperDir :=
  joinPath_ne_of_length p (by decide)

/-- Every action `applyDiskLimit` performs is quota machinery: never a
directory creation and never a mount. -/
theorem applyDiskLimit_trace_shape (d : Driver) (env : Env) (spec : ImageDriverSpec) :
    ∀ a ∈ (applyDiskLimit d env spec).2, a.isMount = false ∧ a.isMkdir = false := by
  intro a ha
  unfold applyDiskLimit at ha
  split at ha
  · simp at ha
  · split at ha
    · split at ha <;> simp at ha <;>
        rcases ha with h | h <;> subst h <;> exact ⟨rfl, rfl⟩
    · simp at ha
      subst ha
      exact ⟨rfl, rfl⟩

/-! ## Claim theorems -/

/-- C2 (counterexample): the claim says `destroy-volume` returns success,
in particular when the volume is absent; on the concrete store `/store`
with an empty filesystem and volume id `vid`, `DestroyVolume` does not
return success (its body is `panic("not implemented")`). -/
theorem DestroyVolume_not_success_at_absent_volume :
    (DestroyVolume ⟨"/store"⟩ "vid" ⟨[], []⟩).1 ≠ .ok () := by
  decide

/-- C2 (amended): for every driver, id and store state, `DestroyVolume`
panics with "not implemented"; it never returns success and removes
nothing. -/
theorem DestroyVolume_panics (d : Driver) (id : String) (fs : FS) :
    (DestroyVolume d id fs).1 = .panicked "not implemented"
    ∧ (DestroyVolume d id fs).1 ≠ .ok ()
    ∧ (DestroyVolume d id fs).2.1 = fs := by
  exact ⟨rfl, by simp [DestroyVolume], rfl⟩

/-- C3 (counterexample): the claim says the stats operation returns a
stats pair rather than failing or diverging; on the concrete image path
`/store/images/i1` there is no stats pair it returns (its body is
`panic("not implemented")`). -/
theorem FetchStats_no_stats_returned :
    ¬ ∃ s, (FetchStats ⟨"/store"⟩ "/store/images/i1" ⟨[], []⟩).1 = .ok s := by
  rintro ⟨s, h⟩
  simp [FetchStats] at h

/-- C3 (amended): for every driver, path and store state, `FetchStats`
panics with "not implemented" and returns no stats pair. -/
theorem FetchStats_panics (d : Driver) (path : String) (fs : FS) :
    (FetchStats d path fs).1 = .panicked "not implemented"
    ∧ ∀ s, (FetchStats d path fs).1 ≠ .ok s := by
  exact ⟨rfl, by intro s; simp [FetchStats]⟩

/-- C7: `CreateVolume` creates `volumes/<id>` under the store path with
mode 0700 (octal 700 = 448) and returns that path; when the directory
already exists it returns an error and leaves the store unchanged. -/
theorem CreateVolume_spec (d : Driver) (parentID id : String) (fs : FS) :
    (fs.dirs.contains (joinPath (joinPath d.storePath VolumesDirName) id) = false →
      CreateVolume d parentID id fs =
        (.ok (joinPath (joinPath d.storePath VolumesDirName) id),
         { fs with dirs := joinPath (joinPath d.storePath VolumesDirName) id :: fs.dirs },
         [.mkdirA (joinPath (joinPath d.storePath VolumesDirName) id) 448]))
    ∧ (fs.dirs.contains (joinPath (joinPath d.storePath VolumesDirName) id) = true →
      (CreateVolume d parentID id fs).1 = .error "creating volume: file exists"
      ∧ (CreateVolume d parentID id fs).2.1 = fs) := by
  constructor
  · intro h
    rw [contains_eq_false_iff] at h
    simp [CreateVolume, h]
  · intro h
    rw [contains_eq_true_iff] at h
    simp [CreateVolume, h]

/-- C7 (witness): creating volume `v1` in an empty store `/store`
succeeds, creates `/store/volumes/v1` with mode 0700 and returns it. -/
theorem CreateVolume_spec_witness :
    CreateVolume ⟨"/store"⟩ "p" "v1" ⟨["/store"], []⟩ =
      (.ok (joinPath (joinPath "/store" VolumesDirName) "v1"),
       { dirs := joinPath (joinPath "/store" VolumesDirName) "v1" :: ["/store"],
         mounts := [] },
       [.mkdirA (joinPath (joinPath "/store" VolumesDirName) "v1") 448]) :=
  (CreateVolume_spec ⟨"/store"⟩ "p" "v1" ⟨["/store"], []⟩).1 (by decide)

/-- C8: when the unmount of `rootfs/` fails, `DestroyImage` returns the
unmount error with the store state exactly as it was: nothing has been
removed. -/
theorem DestroyImage_unmount_failure_atomic (d : Driver) (env : Env)
    (imagePath : String) (fs : FS) (h : env.unmountOk = false) :
    (DestroyImage d env imagePath fs).1 = .error "unmounting rootfs folder"
    ∧ (DestroyImage d env imagePath fs).2.1 = fs := by
  simp [DestroyImage, h]

/-- C8 (witness): on a concrete store holding a mounted image at `/i`,
an unmount failure leaves the state untouched and yields the unmount
error. -/
theorem DestroyImage_unmount_failure_atomic_witness :
    (DestroyImage ⟨"/store"⟩ ⟨true, false, fun _ => true, fun _ => true, true, true⟩
        "/i" ⟨["/i/rootfs", "/i/workdir", "/i/diff"], ["/i/rootfs"]⟩).1 =
      .error "unmounting rootfs folder"
    ∧ (DestroyImage ⟨"/store"⟩ ⟨true, false, fun _ => true, fun _ => true, true, true⟩
        "/i" ⟨["/i/rootfs", "/i/workdir", "/i/diff"], ["/i/rootfs"]⟩).2.1 =
      ⟨["/i/rootfs", "/i/workdir", "/i/diff"], ["/i/rootfs"]⟩ :=
  DestroyImage_unmount_failure_atomic ⟨"/store"⟩
    ⟨true, false, fun _ => true, fun _ => true, true, true⟩
    "/i" ⟨["/i/rootfs", "/i/workdir", "/i/diff"], ["/i/rootfs"]⟩ rfl

/-- C9: `VolumePath` returns `store-path/volumes/<id>` exactly when that
directory exists, returns an error message containing the id when it
does not, and in both cases leaves the store state unchanged (its only
action is a stat). -/
theorem VolumePath_spec (d : Driver) (id : String) (fs : FS) :
    (fs.dirs.contains (joinPath (joinPath d.storePath VolumesDirName) id) = true →
      VolumePath d id fs =
        (.ok (joinPath (joinPath d.storePath VolumesDirName) id), fs,
         [.statA (joinPath (joinPath d.storePath VolumesDirName) id)]))
    ∧ (fs.dirs.contains (joinPath (joinPath d.storePath VolumesDirName) id) = false →
      (VolumePath d id fs).1 = .error ("volume does not exist `" ++ id ++ "`: stat error")
      ∧ ∃ a b, "volume does not exist `" ++ id ++ "`: stat error" = a ++ id ++ b)
    ∧ (VolumePath d id fs).2.1 = fs
    ∧ (VolumePath d id fs).2.2 =
        [.statA (joinPath (joinPath d.storePath VolumesDirName) id)] := by
  refine ⟨?_, ?_, ?_, ?_⟩
  · intro h
    rw [contains_eq_true_iff] at h
    simp [VolumePath, h]
  · intro h
    rw [contains_eq_false_iff] at h
    refine ⟨by simp [VolumePath, h], "volume does not exist `", "`: stat error", ?_⟩
    simp [String.append_assoc]
  · by_cases hc : joinPath (joinPath d.storePath VolumesDirName) id ∈ fs.dirs <;>
      simp [VolumePath, hc]
  · by_cases hc : joinPath (joinPath d.storePath VolumesDirName) id ∈ fs.dirs <;>
      simp [VolumePath, hc]

/-- C9 (witness): on a store where `/store/volumes/v1` exists,
`VolumePath` returns it with no state change. -/
theorem VolumePath_spec_witness :
    VolumePath ⟨"/store"⟩ "v1" ⟨["/store/volumes/v1"], []⟩ =
      (.ok (joinPath (joinPath "/store" VolumesDirName) "v1"),
       ⟨["/store/volumes/v1"], []⟩,
       [.statA (joinPath (joinPath "/store" VolumesDirName) "v1")]) :=
  (VolumePath_spec ⟨"/store"⟩ "v1" ⟨["/store/volumes/v1"], []⟩).1 (by decide)

/-- C1 (counterexample): the claim says that after a mount failure the
image path holds none of the upper/work/rootfs directories; on the
concrete store `/store` with image path `/i` and base volume `/v`, when
the kernel rejects the overlay mount, `CreateImage` returns the mount
error yet all three directories are still present. -/
theorem CreateImage_mount_failure_dirs_remain :
    (CreateImage ⟨"/store"⟩ ⟨false, true, fun _ => true, fun _ => true, true, true⟩
        ⟨"/i", "/v", 0⟩ ⟨["/i", "/v"], []⟩).1 = .error "mounting overlay"
    ∧ (CreateImage ⟨"/store"⟩ ⟨false, true, fun _ => true, fun _ => true, true, true⟩
        ⟨"/i", "/v", 0⟩ ⟨["/i", "/v"], []⟩).2.1.dirs.contains "/i/diff" = true
    ∧ (CreateImage ⟨"/store"⟩ ⟨false, true, fun _ => true, fun _ => true, true, true⟩
        ⟨"/i", "/v", 0⟩ ⟨["/i", "/v"], []⟩).2.1.dirs.contains "/i/workdir" = true
    ∧ (CreateImage ⟨"/store"⟩ ⟨false, true, fun _ => true, fun _ => true, true, true⟩
        ⟨"/i", "/v", 0⟩ ⟨["/i", "/v"], []⟩).2.1.dirs.contains "/i/rootfs" = true := by
  refine ⟨rfl, rfl, rfl, rfl⟩

/-- C1 (amended): when the overlay mount fails after the upper, work and
rootfs directories were created, `CreateImage` returns the mount error
and leaves all three directories in place (no cleanup is performed). -/
theorem CreateImage_mount_failure_no_cleanup (d : Driver) (env : Env)
    (spec : ImageDriverSpec) (fs : FS)
    (h1 : fs.dirs.contains spec.ImagePath = true)
    (h2 : fs.dirs.contains spec.BaseVolumePath = true)
    (hq : (applyDiskLimit d env spec).1 = .ok ())
    (hu : fs.dirs.contains (joinPath spec.ImagePath UpperDir) = false)
    (hw : fs.dirs.contains (joinPath spec.ImagePath WorkDir) = false)
    (hr : fs.dirs.contains (joinPath spec.ImagePath RootfsDir) = false)
    (hm : env.mountOk = false) :
    (CreateImage d env spec fs).1 = .error "mounting overlay"
    ∧ (CreateImage d env spec fs).2.1.dirs =
        joinPath spec.ImagePath RootfsDir :: joinPath spec.ImagePath WorkDir ::
          joinPath spec.ImagePath UpperDir :: fs.dirs := by
  rw [contains_eq_true_iff] at h1 h2
  rw [contains_eq_false_iff] at hu hw hr
  simp [CreateImage, h1, h2, hq, hu, hw, hr, hm,
    work_ne_upper, rootfs_ne_upper, rootfs_ne_work]

/-- C1 (witness for the amended claim): instantiation of the amended
claim on a concrete store where the disk limit is positive and the
mount fails. -/
theorem CreateImage_mount_failure_no_cleanup_witness :
    (CreateImage ⟨"/st"⟩ ⟨false, true, fun _ => true, fun _ => true, true, true⟩
        ⟨"/img", "/vol", 1024⟩ ⟨["/img", "/vol"], []⟩).1 = .error "mounting overlay"
    ∧ (CreateImage ⟨"/st"⟩ ⟨false, true, fun _ => true, fun _ => true, true, true⟩
        ⟨"/img", "/vol", 1024⟩ ⟨["/img", "/vol"], []⟩).2.1.dirs =
        joinPath "/img" RootfsDir :: joinPath "/img" WorkDir ::
          joinPath "/img" UpperDir :: ["/img", "/vol"] :=
  CreateImage_mount_failure_no_cleanup ⟨"/st"⟩
    ⟨false, true, fun _ => true, fun _ => true, true, true⟩
    ⟨"/img", "/vol", 1024⟩ ⟨["/img", "/vol"], []⟩
    (by decide) (by decide) rfl (by decide) (by decide) (by decide) rfl

/-- C6: `DestroyImage` first unmounts `rootfs/`, then removes `rootfs/`,
then the work directory, then the upper directory, in exactly that
order (the success trace); an unmount failure makes it fail, and each
directory-removal failure after a successful unmount makes it fail. -/
theorem DestroyImage_order_and_failures (d : Driver) (env : Env)
    (imagePath : String) (fs : FS) :
    (env.unmountOk = false →
      (DestroyImage d env imagePath fs).1 = .error "unmounting rootfs folder"
      ∧ (DestroyImage d env imagePath fs).2.2 = [.unmountA (joinPath imagePath RootfsDir)])
    ∧ (env.unmountOk = true →
      joinPath imagePath RootfsDir ∈ fs.dirs →
      env.removeOk (joinPath imagePath RootfsDir) = true →
      env.removeAllOk (joinPath imagePath WorkDir) = true →
      env.removeAllOk (joinPath imagePath UpperDir) = true →
      (DestroyImage d env imagePath fs).1 = .ok ()
      ∧ (DestroyImage d env imagePath fs).2.2 =
          [.unmountA (joinPath imagePath RootfsDir),
           .removeA (joinPath imagePath RootfsDir),
           .removeAllA (joinPath imagePath WorkDir),
           .removeAllA (joinPath imagePath UpperDir)])
    ∧ (env.unmountOk = true →
      (joinPath imagePath RootfsDir ∉ fs.dirs
        ∨ env.removeOk (joinPath imagePath RootfsDir) = false) →
      (DestroyImage d env imagePath fs).1 = .error "deleting rootfs folder")
    ∧ (env.unmountOk = true →
      joinPath imagePath RootfsDir ∈ fs.dirs →
      env.removeOk (joinPath imagePath RootfsDir) = true →
      env.removeAllOk (joinPath imagePath WorkDir) = false →
      (DestroyImage d env imagePath fs).1 = .error "deleting workdir folder")
    ∧ (env.unmountOk = true →
      joinPath imagePath RootfsDir ∈ fs.dirs →
      env.removeOk (joinPath imagePath RootfsDir) = true →
      env.removeAllOk (joinPath imagePath WorkDir) = true →
      env.removeAllOk (joinPath imagePath UpperDir) = false →
      (DestroyImage d env imagePath fs).1 = .error "deleting upperdir folder") := by
  refine ⟨?_, ?_, ?_, ?_, ?_⟩
  · intro hu
    simp [DestroyImage, hu]
  · intro hu hc hro hw hup
    simp [DestroyImage, hu, hc, hro, hw, hup]
  · intro hu hfail
    rcases hfail with h | h <;> simp [DestroyImage, hu, h]
  · intro hu hc hro hw
    simp [DestroyImage, hu, hc, hro, hw]
  · intro hu hc hro hw hup
    simp [DestroyImage, hu, hc, hro, hw, hup]

/-- C6 (witness): on a concrete store holding a mounted image at `/i`
with all syscalls succeeding, destroy-image succeeds with the trace
unmount, remove rootfs, remove work, remove upper, in that order. -/
theorem DestroyImage_order_and_failures_witness :
    (DestroyImage ⟨"/store"⟩ ⟨true, true, fun _ => true, fun _ => true, true, true⟩
        "/i" ⟨["/i/rootfs", "/i/workdir", "/i/diff"], ["/i/rootfs"]⟩).1 = .ok ()
    ∧ (DestroyImage ⟨"/store"⟩ ⟨true, true, fun _ => true, fun _ => true, true, true⟩
        "/i" ⟨["/i/rootfs", "/i/workdir", "/i/diff"], ["/i/rootfs"]⟩).2.2 =
        [.unmountA (joinPath "/i" RootfsDir),
         .removeA (joinPath "/i" RootfsDir),
         .removeAllA (joinPath "/i" WorkDir),
         .removeAllA (joinPath "/i" UpperDir)] :=
  (DestroyImage_order_and_failures ⟨"/store"⟩
      ⟨true, true, fun _ => true, fun _ => true, true, true⟩
      "/i" ⟨["/i/rootfs", "/i/workdir", "/i/diff"], ["/i/rootfs"]⟩).2.1
    rfl (by decide) rfl rfl rfl

/-- C4: the overlay mount performed on `rootfs/` uses `lowerdir` equal to
the colon-joined base volume paths in chain order, `upperdir` equal to
the image's upper directory (`diff/`) and `workdir` equal to the image's
work directory (`workdir/`): the unique mount action in the trace is the
overlay mount of exactly that data, targeting `rootfs/`. -/
theorem CreateImage_mount_uses_chain (d : Driver) (env : Env) (p : String)
    (chain : List String) (dl : Int) (fs : FS)
    (hne : chain ≠ [])
    (h1 : fs.dirs.contains p = true)
    (h2 : fs.dirs.contains (colonJoin chain) = true)
    (hq : (applyDiskLimit d env (specOfChain p chain dl)).1 = .ok ())
    (hu : fs.dirs.contains (joinPath p UpperDir) = false)
    (hw : fs.dirs.contains (joinPath p WorkDir) = false)
    (hr : fs.dirs.contains (joinPath p RootfsDir) = false) :
    ((CreateImage d env (specOfChain p chain dl) fs).2.2).filter Action.isMount =
      [.mountA "overlay" (joinPath p RootfsDir) "overlay" 0
        ("lowerdir=" ++ colonJoin chain ++ ",upperdir=" ++ joinPath p UpperDir
          ++ ",workdir=" ++ joinPath p WorkDir)] := by
  rw [contains_eq_true_iff] at h1 h2
  rw [contains_eq_false_iff] at hu hw hr
  have hqt : ((applyDiskLimit d env (specOfChain p chain dl)).2).filter Action.isMount
      = [] := by
    rw [List.filter_eq_nil_iff]
    intro a ha
    simp [(applyDiskLimit_trace_shape d env (specOfChain p chain dl) a ha).1]
  simp only [specOfChain] at hq hqt ⊢
  cases hm : env.mountOk <;>
    simp [CreateImage, h1, h2, hq, hu, hw, hr, hm, work_ne_upper,
      rootfs_ne_upper, rootfs_ne_work, List.filter_append, hqt, Action.isMount]

/-- C4 (witness): for the two-element chain `["/v1", "/v2"]` the mount
action carries `lowerdir=/v1:/v2`, upperdir `diff/` and workdir
`workdir/` of the image path. -/
theorem CreateImage_mount_uses_chain_witness :
    ((CreateImage ⟨"/st"⟩ ⟨true, true, fun _ => true, fun _ => true, true, true⟩
        (specOfChain "/img" ["/v1", "/v2"] 0) ⟨["/img", "/v1:/v2"], []⟩).2.2).filter
        Action.isMount =
      [.mountA "overlay" (joinPath "/img" RootfsDir) "overlay" 0
        ("lowerdir=" ++ colonJoin ["/v1", "/v2"] ++ ",upperdir="
          ++ joinPath "/img" UpperDir ++ ",workdir=" ++ joinPath "/img" WorkDir)] :=
  CreateImage_mount_uses_chain ⟨"/st"⟩
    ⟨true, true, fun _ => true, fun _ => true, true, true⟩
    "/img" ["/v1", "/v2"] 0 ⟨["/img", "/v1:/v2"], []⟩
    (by decide) (by decide) (by decide) rfl (by decide) (by decide) (by decide)

/-- C5: with a positive disk limit, `CreateImage` sets an XFS quota on
the image path whose size equals the limit in bytes, strictly before
creating the upper/work/rootfs directories and before the overlay mount
(the full success trace makes the ordering explicit); with a zero disk
limit, applying the limit is a no-op that succeeds and performs no
action. -/
theorem CreateImage_quota_before_mount (d : Driver) (env : Env)
    (spec : ImageDriverSpec) (fs : FS)
    (h1 : fs.dirs.contains spec.ImagePath = true)
    (h2 : fs.dirs.contains spec.BaseVolumePath = true)
    (hu : fs.dirs.contains (joinPath spec.ImagePath UpperDir) = false)
    (hw : fs.dirs.contains (joinPath spec.ImagePath WorkDir) = false)
    (hr : fs.dirs.contains (joinPath spec.ImagePath RootfsDir) = false)
    (hqc : env.quotaControlOk = true)
    (hsq : env.setQuotaOk = true) :
    (spec.DiskLimit = 0 → applyDiskLimit d env spec = (.ok (), []))
    ∧ (0 < spec.DiskLimit → spec.DiskLimit < 2 ^ 63 →
        (CreateImage d env spec fs).2.2 =
          [.statA spec.ImagePath, .statA spec.BaseVolumePath,
           .newQuotaControlA (joinPath d.storePath ImageDirName),
           .setQuotaA spec.ImagePath spec.DiskLimit.toNat,
           .mkdirA (joinPath spec.ImagePath UpperDir) 448,
           .mkdirA (joinPath spec.ImagePath WorkDir) 448,
           .mkdirA (joinPath spec.ImagePath RootfsDir) 448,
           .mountA "overlay" (joinPath spec.ImagePath RootfsDir) "overlay" 0
             ("lowerdir=" ++ spec.BaseVolumePath ++ ",upperdir="
               ++ joinPath spec.ImagePath UpperDir ++ ",workdir="
               ++ joinPath spec.ImagePath WorkDir)]) := by
  constructor
  · intro h0
    simp [applyDiskLimit, h0]
  · intro hpos hlt
    have hne0 : ¬ spec.DiskLimit = 0 := by omega
    have happ : applyDiskLimit d env spec =
        (.ok (), [.newQuotaControlA (joinPath d.storePath ImageDirName),
                  .setQuotaA spec.ImagePath spec.DiskLimit.toNat]) := by
      simp only [applyDiskLimit, hne0, hqc, hsq, if_true, if_false]
      simp only [Prod.mk.injEq, List.cons.injEq, and_true, true_and]
      congr 1
      omega
    rw [contains_eq_true_iff] at h1 h2
    rw [contains_eq_false_iff] at hu hw hr
    cases hm : env.mountOk <;>
      simp [CreateImage, h1, h2, happ, hu, hw, hr, hm, work_ne_upper,
        rootfs_ne_upper, rootfs_ne_work]

/-- C5 (witness): a 1024-byte disk limit on a concrete store yields the
trace stat, stat, quota-control, set-quota(1024), the three mkdirs and
then the mount, in that order. -/
theorem CreateImage_quota_before_mount_witness :
    (CreateImage ⟨"/st"⟩ ⟨true, true, fun _ => true, fun _ => true, true, true⟩
        ⟨"/i", "/v", 1024⟩ ⟨["/i", "/v"], []⟩).2.2 =
      [.statA "/i", .statA "/v",
       .newQuotaControlA (joinPath "/st" ImageDirName),
       .setQuotaA "/i" 1024,
       .mkdirA (joinPath "/i" UpperDir) 448,
       .mkdirA (joinPath "/i" WorkDir) 448,
       .mkdirA (joinPath "/i" RootfsDir) 448,
       .mountA "overlay" (joinPath "/i" RootfsDir) "overlay" 0
         ("lowerdir=" ++ "/v" ++ ",upperdir=" ++ joinPath "/i" UpperDir
           ++ ",workdir=" ++ joinPath "/i" WorkDir)] :=
  (CreateImage_quota_before_mount ⟨"/st"⟩
      ⟨true, true, fun _ => true, fun _ => true, true, true⟩
      ⟨"/i", "/v", 1024⟩ ⟨["/i", "/v"], []⟩
      (by decide) (by decide) (by decide) (by decide) (by decide) rfl rfl).2
    (by decide) (by decide)

/-- C10: a negative disk limit is not rejected: `applyDiskLimit` succeeds
and sets a quota whose size is the limit reinterpreted as an unsigned
64-bit integer (the limit modulo `2^64`), which for an int64-range
negative limit is at least `2^63` — an enormous quota rather than an
error. -/
theorem applyDiskLimit_negative (d : Driver) (env : Env) (spec : ImageDriverSpec)
    (hneg : spec.DiskLimit < 0) (hrange : -(2 ^ 63) ≤ spec.DiskLimit)
    (hqc : env.quotaControlOk = true) (hsq : env.setQuotaOk = true) :
    applyDiskLimit d env spec =
      (.ok (), [.newQuotaControlA (joinPath d.storePath ImageDirName),
                .setQuotaA spec.ImagePath ((spec.DiskLimit % (2 ^ 64 : Int)).toNat)])
    ∧ 2 ^ 63 ≤ (spec.DiskLimit % (2 ^ 64 : Int)).toNat := by
  constructor
  · have hne0 : ¬ spec.DiskLimit = 0 := by omega
    simp [applyDiskLimit, hne0, hqc, hsq]
  · have h1 : spec.DiskLimit % (2 ^ 64 : Int) = spec.DiskLimit + 2 ^ 64 := by
      omega
    rw [h1]
    omega

/-- C10 (witness): with disk limit `-1`, the quota set is
`2^64 - 1 = 18446744073709551615` bytes. -/
theorem applyDiskLimit_negative_witness :
    applyDiskLimit ⟨"/st"⟩ ⟨true, true, fun _ => true, fun _ => true, true, true⟩
        ⟨"/i", "/v", -1⟩ =
      (.ok (), [.newQuotaControlA (joinPath "/st" ImageDirName),
                .setQuotaA "/i" (((-1 : Int) % (2 ^ 64 : Int)).toNat)])
    ∧ 2 ^ 63 ≤ (((-1 : Int) % (2 ^ 64 : Int)).toNat) :=
  applyDiskLimit_negative ⟨"/st"⟩
    ⟨true, true, fun _ => true, fun _ => true, true, true⟩
    ⟨"/i", "/v", -1⟩ (by decide) (by decide) rfl rfl

end OverlayXfs
